import Mathlib

/-!
Shallow embedding of the flexrag repository (kylin / librarian / flexrag
generations) for checking the natural-language specification against the
code.  Python functions are translated into executable Lean definitions;
fallible Python code returns Except values whose error constructors mirror
the Python exception classes; Python dicts are modelled as association
lists preserving insertion order.
-/

set_option linter.unusedVariables false

/-- Python exception kinds raised by the embedded code. -/
inductive PyErr where
  | attributeError (msg : String)
  | typeError (msg : String)
  | keyError (key : String)
  | valueError (msg : String)
  | unboundLocalError (name : String)
  | indexError (msg : String)
  | assertionError (msg : String)
deriving DecidableEq, Repr

deriving instance DecidableEq for Except

/-- Python values appearing as dict entries and keyword arguments. -/
inductive PyVal where
  | s (v : String)
  | i (v : Int)
  | f (v : Rat)
  | b (v : Bool)
  | d (v : List (String × String))
  | pynone
deriving DecidableEq, Repr

/-- True on a successful Except result. -/
def exOk {ε α : Type _} : Except ε α → Bool
  | .ok _ => true
  | .error _ => false

/-- Association-list lookup: the Python in-dict test and subscript. -/
def lookupA {β : Type _} : List (String × β) → String → Option β
  | [], _ => none
  | p :: rest, k => if p.fst = k then some p.snd else lookupA rest k

/-- Python dict assignment: update in place if the key exists, append otherwise. -/
def dictSet {β : Type _} : List (String × β) → String → β → List (String × β)
  | [], k, v => [(k, v)]
  | (k', v') :: rest, k, v =>
    if k' = k then (k, v) :: rest else (k', v') :: dictSet rest k v

/-- Python dict merge as in a double-star unpacking: right operand wins. -/
def dictMerge {β : Type _} (a b : List (String × β)) : List (String × β) :=
  b.foldl (fun acc p => dictSet acc p.fst p.snd) a

/-- Leading-match test over character lists. -/
def leadMatch : List Char → List Char → Bool
  | [], _ => true
  | _ :: _, [] => false
  | a :: as, b :: bs => a == b && leadMatch as bs

def containsSubAux (pat : List Char) : List Char → Bool
  | [] => leadMatch pat []
  | c :: rest => leadMatch pat (c :: rest) || containsSubAux pat rest

/-- Python substring containment test, the in operator on str. -/
def containsSub (s pat : String) : Bool :=
  containsSubAux pat.toList s.toList

/-- Python str.lower, character by character. -/
def pyLower (s : String) : String := ⟨s.data.map Char.toLower⟩

/- ===== Chat prompt data model (src/kylin/prompt/prompt_base.py) ===== -/

/-- One role and content pair, the dict form of a chat turn. -/
structure TurnDict where
  role : String
  content : String
deriving DecidableEq, Repr

/-- ChatTurn from prompt_base.py: one message of a conversation. -/
structure ChatTurn where
  role : String
  content : String
deriving DecidableEq, Repr

def ChatTurn.to_dict (t : ChatTurn) : TurnDict := ⟨t.role, t.content⟩

def ChatTurn.from_dict (dd : TurnDict) : ChatTurn := ⟨dd.role, dd.content⟩

/-- ChatPrompt from prompt_base.py: optional system turn, history, demonstrations. -/
structure ChatPrompt where
  system : Option ChatTurn
  history : List ChatTurn
  demonstrations : List (List ChatTurn)
deriving DecidableEq, Repr

/-- ChatPrompt.to_list: system first, then flattened demonstrations, then history. -/
def ChatPrompt.to_list (p : ChatPrompt) : List TurnDict :=
  (match p.system with
   | some s => [TurnDict.mk "system" s.content]
   | none => [])
  ++ p.demonstrations.foldl (fun acc demo => acc ++ demo.map ChatTurn.to_dict) []
  ++ p.history.map ChatTurn.to_dict

/-- The JSON documents that ChatPrompt serialization reads and writes: the
document schema with a system entry that the on-disk format allows to be
null, plus the legacy flat list form accepted on read. -/
inductive PromptJson where
  | doc (system : Option TurnDict) (history : List TurnDict)
        (demonstrations : List (List TurnDict))
  | flat (turns : List TurnDict)
deriving DecidableEq, Repr

/-- ChatPrompt.to_json: builds the document dict.  The source reads
self.system.to_dict() unconditionally, so a missing system turn raises
AttributeError before anything is written. -/
def ChatPrompt.to_json (p : ChatPrompt) : Except PyErr PromptJson :=
  match p.system with
  | none => .error (.attributeError "NoneType object has no to_dict")
  | some s =>
    .ok (.doc (some s.to_dict)
          (p.history.map ChatTurn.to_dict)
          (p.demonstrations.map (fun demo => demo.map ChatTurn.to_dict)))

/-- ChatPrompt.from_list: legacy flat form; pops a leading system turn. -/
def ChatPrompt.from_list (turns : List TurnDict) : Except PyErr ChatPrompt :=
  let history := turns.map ChatTurn.from_dict
  match history with
  | [] => .error (.indexError "list index out of range")
  | h :: rest =>
    if h.role = "system" then .ok ⟨some h, rest, []⟩
    else .ok ⟨none, h :: rest, []⟩

/-- ChatPrompt.from_json: the flat form goes through from_list; the document
form converts each entry with ChatTurn.from_dict (a null system entry would
be subscripted and raises TypeError).  The dataclass constructor inspects
demonstrations[0][0] when demonstrations is non-empty, so a leading empty
demonstration raises IndexError. -/
def ChatPrompt.from_json : PromptJson → Except PyErr ChatPrompt
  | .flat turns => ChatPrompt.from_list turns
  | .doc sys history demos =>
    match sys with
    | none => .error (.typeError "NoneType object is not subscriptable")
    | some sd =>
      let h := history.map ChatTurn.from_dict
      let ds := demos.map (fun demo => demo.map ChatTurn.from_dict)
      match ds with
      | [] => .ok ⟨some (ChatTurn.from_dict sd), h, []⟩
      | [] :: _ => .error (.indexError "list index out of range")
      | d0 :: rest => .ok ⟨some (ChatTurn.from_dict sd), h, d0 :: rest⟩

/- ===== GenerationConfig (src/src/flexrag/models/model_base.py) ===== -/

/-- GenerationConfig dataclass fields with their declared defaults. -/
structure GenerationConfig where
  do_sample : Bool := true
  sample_num : Int := 1
  temperature : Rat := 1
  max_new_tokens : Int := 512
  top_p : Rat := mkRat 9 10
  top_k : Int := 50
  eos_token_id : Option Int := none
  stop_str : List String := []
deriving DecidableEq, Repr

/-- The assert sequence of GenerationConfig.__post_init__. -/
def GenerationConfig.post_init (c : GenerationConfig) : Except PyErr Unit :=
  if ¬ (c.sample_num > 0) then
    .error (.assertionError "sample_num must be greater than 0")
  else if c.sample_num > 1 ∧ ¬ c.do_sample then
    .error (.assertionError "do_sample must be True when sample_num > 1")
  else if ¬ (c.temperature ≥ 0) then
    .error (.assertionError "temperature must be greater than or equal to 0")
  else if ¬ (c.max_new_tokens > 0) then
    .error (.assertionError "max_new_tokens must be greater than 0")
  else if ¬ (0 ≤ c.top_p ∧ c.top_p ≤ 1) then
    .error (.assertionError "top_p must be between 0 and 1")
  else if ¬ (c.top_k > 0) then
    .error (.assertionError "top_k must be greater than 0")
  else .ok ()

/-- Dataclass construction: field assignment followed by __post_init__. -/
def GenerationConfig.construct (c : GenerationConfig) : Except PyErr GenerationConfig :=
  match c.post_init with
  | .ok _ => .ok c
  | .error e => .error e

/- ===== Plugin registry (src/src/librarian/utils.py, class Register) ===== -/

/-- One registered entry: implementation (abstracted to an id), its main
name, its aliases and its configuration class name. -/
structure RegEntry where
  item : Nat
  main_name : String
  short_names : List String
  config_class : Option String
deriving DecidableEq, Repr

/-- Register state: the two dicts of the Python class. -/
structure Register where
  items : List (String × RegEntry)
  shortcuts : List (String × String)
deriving DecidableEq, Repr

/-- Register.names: main names followed by aliases. -/
def Register.names (r : Register) : List String :=
  r.items.map Prod.fst ++ r.shortcuts.map Prod.fst

/-- The registe_item closure inside Register.__call__: asserts that the main
name and every alias is absent from both dicts, then inserts the entry and
maps each alias to the main name. -/
def Register.registe_item (r : Register) (main_name : String)
    (short_names : List String) (item : Nat) (config_class : Option String) :
    Except PyErr Register :=
  if (lookupA r.items main_name).isSome then
    .error (.assertionError ("Name Conflict " ++ main_name))
  else if (lookupA r.shortcuts main_name).isSome then
    .error (.assertionError ("Name Conflict " ++ main_name))
  else
    match short_names.find?
        (fun n => (lookupA r.items n).isSome || (lookupA r.shortcuts n).isSome) with
    | some n => .error (.assertionError ("Name Conflict " ++ n))
    | none =>
      .ok { items := dictSet r.items main_name
              ⟨item, main_name, short_names, config_class⟩,
            shortcuts := short_names.foldl
              (fun sc n => dictSet sc n main_name) r.shortcuts }

/-- Register.__getitem__: looks the key up among main names, falling back to
the alias dict; a missing key raises KeyError. -/
def Register.getEntry (r : Register) (key : String) : Except PyErr RegEntry :=
  match lookupA r.items key with
  | some e => .ok e
  | none =>
    match lookupA r.shortcuts key with
    | some mainKey =>
      match lookupA r.items mainKey with
      | some e => .ok e
      | none => .error (.keyError mainKey)
    | none => .error (.keyError key)

/-- Register.__add__: a plain dict union of both dicts, the right operand
winning on key collisions; no collision check is performed. -/
def Register.add (r1 r2 : Register) : Register :=
  { items := dictMerge r1.items r2.items,
    shortcuts := dictMerge r1.shortcuts r2.shortcuts }

/-- The registry invariant of the specification: no two entries (main name
or alias) collide. -/
def Register.noCollision (r : Register) : Prop :=
  r.names.Nodup

instance (r : Register) : Decidable r.noCollision := by
  unfold Register.noCollision; infer_instance

/- ===== Prompt templating (src/kylin/prompt/template.py, HFTemplate) ===== -/

/-- The external tokenizer behind HFTemplate: the chat template renders a
turn list to text, tokenize maps text to ids, and model_max_length is the
bound the tokenizer truncates to when truncation is requested without an
explicit max_length. -/
structure HFTokenizer where
  apply_chat_template : List TurnDict → Bool → String
  tokenize : String → List Int
  model_max_length : Nat

/-- Truncation applied by the tokenizer for a requested side and bound. -/
def truncateIds (side : String) (maxLen : Nat) (ids : List Int) : List Int :=
  if side = "left" then ids.drop (ids.length - maxLen) else ids.take maxLen

/-- HFTemplate.render_to_text: inserts the default system prompt when the
prompt is empty or does not start with a system turn; an empty turn list
with no default system prompt raises IndexError at the subscript. -/
def render_to_text (tok : HFTokenizer) (sys_prompt : Option String)
    (p : ChatPrompt) (add_generation_prompt : Bool) : Except PyErr String :=
  let p1 := p.to_list
  let p2 := match p1, sys_prompt with
    | [], some sp => [TurnDict.mk "system" sp]
    | _, _ => p1
  match p2, sys_prompt with
  | [], _ => .error (.indexError "list index out of range")
  | h :: t, some sp =>
    if h.role ≠ "system" then
      .ok (tok.apply_chat_template (TurnDict.mk "system" sp :: h :: t) add_generation_prompt)
    else
      .ok (tok.apply_chat_template (h :: t) add_generation_prompt)
  | h :: t, none => .ok (tok.apply_chat_template (h :: t) add_generation_prompt)

/-- The inner _encode of HFTemplate.render_to_ids: render to text, then
tokenize; with truncation requested and no explicit max_length the
tokenizer truncates to its own model_max_length. -/
def hfEncode (tok : HFTokenizer) (sys_prompt : Option String)
    (add_generation_prompt : Bool) (p : ChatPrompt) (max_length : Option Nat)
    (truncation : Bool) (truncation_side : String) : Except PyErr (List Int) :=
  match render_to_text tok sys_prompt p add_generation_prompt with
  | .error e => .error e
  | .ok text =>
    let ids := tok.tokenize text
    if truncation then
      .ok (truncateIds truncation_side (max_length.getD tok.model_max_length) ids)
    else .ok ids

/-- The while loop of the demo truncation arm: the loop condition uses the
pre-computed id length, which the body never recomputes, so the loop pops
demonstrations one by one until none remain and then raises ValueError. -/
def demoLoop (preLen maxLength : Nat) : List (List ChatTurn) → Except PyErr Unit
  | [] =>
    if preLen > maxLength then
      .error (.valueError "Unable to truncate the prompt using demo strategy.")
    else .ok ()
  | _ :: rest =>
    if preLen > maxLength then demoLoop preLen maxLength rest
    else .ok ()

/-- HFTemplate.render_to_ids for the demo strategy: encodes once, runs the
demonstration-popping loop, and then returns the variable ids which the
demo arm never assigned, raising UnboundLocalError when the loop exits
normally. -/
def render_to_ids_demo (tok : HFTokenizer) (sys_prompt : Option String)
    (add_generation_prompt : Bool) (p : ChatPrompt) (maxLength : Nat) :
    Except PyErr (List Int) :=
  match hfEncode tok sys_prompt add_generation_prompt p none false "left" with
  | .error e => .error e
  | .ok preIds =>
    match demoLoop preIds.length maxLength p.demonstrations with
    | .error e => .error e
    | .ok _ => .error (.unboundLocalError "ids")

/-- The while loop of the auto strategy, with fuel: pops the two oldest
history turns, then the oldest demonstration, re-encoding each time; once
neither is available it re-encodes with truncation but without passing
max_length, so the tokenizer truncates only to model_max_length.  none
means the fuel ran out before the loop exited. -/
def autoLoop (tok : HFTokenizer) (sys_prompt : Option String)
    (add_generation_prompt : Bool) (maxLength : Nat) :
    Nat → ChatPrompt → List Int → Option (Except PyErr (List Int))
  | 0, _, _ => none
  | fuel + 1, p, preIds =>
    if preIds.length > maxLength then
      if p.history.length > 1 then
        let p' : ChatPrompt := ⟨p.system, p.history.drop 2, p.demonstrations⟩
        match hfEncode tok sys_prompt add_generation_prompt p' none false "left" with
        | .error e => some (.error e)
        | .ok pre' => autoLoop tok sys_prompt add_generation_prompt maxLength fuel p' pre'
      else if p.demonstrations.length > 0 then
        let p' : ChatPrompt := ⟨p.system, p.history, p.demonstrations.drop 1⟩
        match hfEncode tok sys_prompt add_generation_prompt p' none false "left" with
        | .error e => some (.error e)
        | .ok pre' => autoLoop tok sys_prompt add_generation_prompt maxLength fuel p' pre'
      else
        match hfEncode tok sys_prompt add_generation_prompt p none true "left" with
        | .error e => some (.error e)
        | .ok pre' => autoLoop tok sys_prompt add_generation_prompt maxLength fuel p pre'
    else some (.ok preIds)

/-- HFTemplate.render_to_ids for the auto strategy, with fuel for the loop. -/
def render_to_ids_auto (tok : HFTokenizer) (sys_prompt : Option String)
    (add_generation_prompt : Bool) (p : ChatPrompt) (maxLength : Nat)
    (fuel : Nat) : Option (Except PyErr (List Int)) :=
  match hfEncode tok sys_prompt add_generation_prompt p none false "left" with
  | .error e => some (.error e)
  | .ok preIds => autoLoop tok sys_prompt add_generation_prompt maxLength fuel p preIds

/-- The auto strategy terminates on a given input when some amount of fuel
makes the loop exit. -/
def autoTerminatesOn (tok : HFTokenizer) (sys_prompt : Option String)
    (add_generation_prompt : Bool) (p : ChatPrompt) (maxLength : Nat) : Prop :=
  ∃ fuel, (render_to_ids_auto tok sys_prompt add_generation_prompt p maxLength fuel).isSome

/-- A concrete tokenizer for evaluating the renderer: the chat template
concatenates the turn contents and tokenization yields one id per
character, with a model length bound of 100. -/
def charTok : HFTokenizer :=
  { apply_chat_template := fun msgs _ => String.join (msgs.map (fun m => m.content)),
    tokenize := fun s => List.replicate s.length 0,
    model_max_length := 100 }

/-- A five-character single-turn prompt with no history pair to drop and no
demonstrations. -/
def helloPrompt : ChatPrompt := ⟨none, [⟨"user", "hello"⟩], []⟩

/- ===== Retriever base and cached search (src/kylin/retriever/retriever_base.py) ===== -/

/-- RetrievedContext dataclass of retriever_base.py: the data-mapping form
with exactly these five fields. -/
structure RetrievedContext where
  retriever : String
  query : String
  data : List (String × String)
  source : Option String := none
  score : Rat := 0
deriving DecidableEq, Repr

/-- A Python list object is never None; the cached-search wrapper tests
list-valued results against None. -/
def pyIsNone (r : List RetrievedContext) : Bool := false

/-- Lexicographic code-point order on character lists, the order Python
sorts strings by. -/
def charListLe : List Char → List Char → Bool
  | [], _ => true
  | _ :: _, [] => false
  | a :: as, b :: bs =>
    if a.toNat < b.toNat then true
    else if b.toNat < a.toNat then false
    else charListLe as bs

def strLe (a b : String) : Bool := charListLe a.toList b.toList

/-- Insertion into a list of keyword items sorted by name. -/
def insertKwSorted (p : String × PyVal) :
    List (String × PyVal) → List (String × PyVal)
  | [] => [p]
  | q :: rest => if strLe p.fst q.fst then p :: q :: rest else q :: insertKwSorted p rest

/-- The hashkey helper of batched_cache: the positional arguments are empty
and the keyword items are sorted by name. -/
def hashkey (kwargs : List (String × PyVal)) : List (String × PyVal) :=
  kwargs.foldr insertKwSorted []

/-- A cache key. -/
abbrev CKey := List (String × PyVal)

/-- Modelled from the spec: the PersistentCache class (kylin.cache) is not
among the sources; the spec gives it a get(key, default) and
dict-item-assignment contract with LRU bounding, modelled here as a finite
map whose get returns the stored value on a hit and the default on a miss. -/
abbrev CacheStore := List (CKey × (List RetrievedContext × CKey))

instance : DecidableEq (List RetrievedContext × CKey) := inferInstance

instance : DecidableEq CacheStore := inferInstance

/-- Cache lookup, the get operation with a None default. -/
def cacheGet (c : CacheStore) (k : CKey) : Option (List RetrievedContext × CKey) :=
  (c.find? (fun p => p.fst = k)).map Prod.snd

/-- Cache item assignment. -/
def cacheSet (c : CacheStore) (k : CKey) (v : List RetrievedContext × CKey) :
    CacheStore :=
  match c with
  | [] => [(k, v)]
  | (k', v') :: rest => if k' = k then (k, v) :: rest else (k', v') :: cacheSet rest k v

/-- The per-key read of the wrapper: RETRIEVAL_CACHE.get(k, None) subscripted
at zero, which returns the cached result on a hit and subscripts None on a
miss, raising TypeError. -/
def cacheGetSub (c : CacheStore) (k : CKey) : Except PyErr (List RetrievedContext) :=
  match cacheGet c k with
  | some rv => .ok rv.fst
  | none => .error (.typeError "NoneType object is not subscriptable")

/-- Sequences the per-key reads of the list comprehension on line 65,
stopping at the first miss. -/
def cacheGetAll (c : CacheStore) : List CKey → Except PyErr (List (List RetrievedContext))
  | [] => .ok []
  | k :: rest =>
    match cacheGetSub c k with
    | .error e => .error e
    | .ok r =>
      match cacheGetAll c rest with
      | .error e => .error e
      | .ok rs => .ok (r :: rs)

/-- Fixed-size batching of the query list (range over the batch starts). -/
def chunkGo {α : Type _} (bs : Nat) : Nat → List α → List (List α)
  | 0, _ => []
  | _, [] => []
  | n + 1, l => l.take bs :: chunkGo bs n (l.drop bs)

def chunked {α : Type _} (bs : Nat) (l : List α) : List (List α) :=
  chunkGo bs l.length l

/-- The undecorated LocalRetriever.search body: optional query
preprocessing, then one search_batch call per fixed-size batch.  Returns
the concatenated results together with the number of search_batch
invocations. -/
def local_search_inner
    (search_batch : List String → Nat → List (List RetrievedContext))
    (batch_size : Nat) (preprocess : String → String) (no_preprocess : Bool)
    (query : List String) (top_k : Nat) :
    List (List RetrievedContext) × Nat :=
  let q := if no_preprocess then query else query.map preprocess
  let batches := chunked batch_size q
  (batches.foldl (fun acc b => acc ++ search_batch b top_k) [], batches.length)

/-- The batched_cache wrapper around LocalRetriever.search: bypasses the
cache when disable_cache is set; otherwise reads every key from the cache,
recomputes the missing subset in bulk, writes each new result back
individually and splices it into its original position.  Returns the
results, the updated cache and the number of search_batch invocations. -/
def batched_cache_search
    (search_batch : List String → Nat → List (List RetrievedContext))
    (batch_size : Nat) (preprocess : String → String) (cfgVal : PyVal)
    (cache : CacheStore) (query : List String) (top_k : Nat)
    (disable_cache : Bool) (search_kwargs : List (String × PyVal)) :
    Except PyErr (List (List RetrievedContext) × CacheStore × Nat) :=
  let no_preprocess := (lookupA search_kwargs "no_preprocess") = some (.b true)
  let func := local_search_inner search_batch batch_size preprocess no_preprocess
  if disable_cache then
    let (res, calls) := func query top_k
    .ok (res, cache, calls)
  else
    let keys := query.map (fun q =>
      hashkey (("cfg", cfgVal) :: ("query", .s q) :: ("top_k", .i top_k)
        :: search_kwargs))
    match cacheGetAll cache keys with
    | .error e => .error e
    | .ok results =>
      let new_query := ((query.zip results).filter (fun p => pyIsNone p.snd)).map Prod.fst
      let new_indices := ((results.enum).filter (fun p => pyIsNone p.snd)).map Prod.fst
      if new_query.isEmpty then
        if results.all (fun r => ¬ pyIsNone r) then .ok (results, cache, 0)
        else .error (.assertionError "all results")
      else
        let (new_results, calls) := func new_query top_k
        let upd := new_indices.zip new_results
        let results2 := upd.foldl (fun rs p => rs.set p.fst p.snd) results
        let cache2 := upd.foldl
          (fun c p =>
            cacheSet c (keys.getD p.fst []) (p.snd, keys.getD p.fst [])) cache
        if results2.all (fun r => ¬ pyIsNone r) then .ok (results2, cache2, calls)
        else .error (.assertionError "all results")

/- ===== Elastic retriever (src/kylin/retriever/elastic_retriever.py) ===== -/

/-- Python dataclass keyword construction: rejects any keyword that is not
a declared field, requires a value for every field without a default, and
produces the resulting field assignment. -/
def dataclassInit (fieldNames : List String) (defaults : List (String × PyVal))
    (kwargs : List (String × PyVal)) : Except PyErr (List (String × PyVal)) :=
  match kwargs.find? (fun p => ¬ fieldNames.contains p.fst) with
  | some p =>
    .error (.typeError ("init got an unexpected keyword argument " ++ p.fst))
  | none =>
    match fieldNames.find?
        (fun f => (lookupA kwargs f).isNone ∧ (lookupA defaults f).isNone) with
    | some f => .error (.typeError ("init missing required argument " ++ f))
    | none =>
      .ok (fieldNames.map (fun f =>
        (f, match lookupA kwargs f with
            | some v => v
            | none => (lookupA defaults f).getD .pynone)))

/-- The field list of the RetrievedContext dataclass that
elastic_retriever.py imports from retriever_base.py. -/
def retrievedContextFields : List String :=
  ["retriever", "query", "data", "source", "score"]

/-- The declared defaults of that dataclass. -/
def retrievedContextDefaults : List (String × PyVal) :=
  [("source", .pynone), ("score", .f 0)]

/-- One hit of an msearch response; sect and body stand for the section and
text source fields, which are reserved words in Lean. -/
structure EsHit where
  hit_id : String
  hit_score : Rat
  title : String
  sect : String
  body : String
deriving DecidableEq, Repr

structure EsResp where
  status : Int
  hits : List EsHit
deriving DecidableEq, Repr

/-- ElasticRetriever.name. -/
def elasticName : String := "ElasticSearch"

/-- ElasticRetriever._form_results: a missing response list is replaced by
per-query status-500 entries; a non-200 status produces one placeholder
context, and a 200 status produces one context per hit — in both branches
through the RetrievedContext constructor called with the fixed-field
keywords of the older context shape. -/
def form_results (index_name : String) (query : List String)
    (responses : Option (List EsResp)) :
    Except PyErr (List (List (List (String × PyVal)))) :=
  let resps := match responses with
    | none => query.map (fun _ => EsResp.mk 500 [])
    | some rs => rs
  let rec go : List (EsResp × String) → Except PyErr (List (List (List (String × PyVal))))
    | [] => .ok []
    | (r, q) :: rest =>
      let entry : Except PyErr (List (List (String × PyVal))) :=
        if r.status ≠ 200 then
          match dataclassInit retrievedContextFields retrievedContextDefaults
              [("retriever", .s elasticName), ("query", .s q), ("chunk_id", .s ""),
               ("source", .s index_name), ("score", .f 0), ("title", .s ""),
               ("section", .s ""), ("text", .s ""), ("full_text", .s "")] with
          | .error e => .error e
          | .ok ctx => .ok [ctx]
        else
          let rec goHits : List EsHit → Except PyErr (List (List (String × PyVal)))
            | [] => .ok []
            | i :: is =>
              match dataclassInit retrievedContextFields retrievedContextDefaults
                  [("retriever", .s elasticName), ("query", .s q),
                   ("chunk_id", .s i.hit_id), ("source", .s index_name),
                   ("score", .f i.hit_score), ("title", .s i.title),
                   ("section", .s i.sect), ("text", .s i.body),
                   ("full_text", .s i.body)] with
              | .error e => .error e
              | .ok ctx =>
                match goHits is with
                | .error e => .error e
                | .ok ctxs => .ok (ctx :: ctxs)
          match goHits r.hits with
          | .error e => .error e
          | .ok ctxs => .ok ctxs
      match entry with
      | .error e => .error e
      | .ok ctxs =>
        match go rest with
        | .error e => .error e
        | .ok rss => .ok (ctxs :: rss)
  go (resps.zip query)

/-- One passage handed to add_passages: a field mapping or a plain string. -/
inductive PassageInput where
  | dict (fields : List (String × String))
  | str (s : String)
deriving DecidableEq, Repr

/-- Wraps a plain string passage as a mapping with a text field. -/
def passageFields : PassageInput → List (String × String)
  | .dict fields => fields
  | .str s => [("text", s)]

/-- Python mapping get with a default. -/
def pGet (m : List (String × String)) (k dflt : String) : String :=
  (lookupA m k).getD dflt

/-- Python mapping subscript: a missing key raises KeyError. -/
def pItem (m : List (String × String)) (k : String) : Except PyErr String :=
  match lookupA m k with
  | some v => .ok v
  | none => .error (.keyError k)

/-- Modelled from the spec: LocalRetriever._prepare_text is called by
add_passages but not defined in the available sources; the ingestion
description indexes the text field of each passage mapping, so it is
modelled as returning the text value of the mapping. -/
def prepare_text (p : List (String × String)) : Except PyErr String :=
  pItem p "text"

/-- One bulk-indexing action produced by generate_actions. -/
structure EsDoc where
  op_type : String
  refresh : String
  title : String
  sect : String
  body : String
deriving DecidableEq, Repr

/-- The outcome of draining generate_actions: the actions produced before
any failure, the content-fingerprint updates performed, and the error that
stopped the generator, if any. -/
structure ActionsResult where
  docs : List EsDoc
  fingerprintUpdates : List String
  err : Option PyErr
deriving DecidableEq, Repr

/-- The generate_actions generator of ElasticRetriever.add_passages: wraps
plain strings, defaults missing title and section to empty strings, builds
the document with the prepared text, and updates the running fingerprint
with the text value of the mapping before yielding. -/
def generate_actions : List PassageInput → ActionsResult
  | [] => ⟨[], [], none⟩
  | passage :: rest =>
    let p := passageFields passage
    match prepare_text p with
    | .error e => ⟨[], [], some e⟩
    | .ok txt =>
      match pItem p "text" with
      | .error e => ⟨[], [], some e⟩
      | .ok fptxt =>
        let doc : EsDoc := ⟨"index", "wait_for", pGet p "title" "", pGet p "section" "", txt⟩
        let tail := generate_actions rest
        ⟨doc :: tail.docs, fptxt :: tail.fingerprintUpdates, tail.err⟩

/-- A passage has the text key that add_passages requires. -/
def hasText : PassageInput → Prop
  | .dict fields => (lookupA fields "text").isSome
  | .str _ => True

instance : DecidablePred hasText := by
  intro p; unfold hasText; cases p <;> infer_instance

/- ===== Web downloader (src/kylin/retriever/web_retrievers/web_downloader.py) ===== -/

/-- SimpleWebDownloaderConfig dataclass with its declared defaults. -/
structure SimpleWebDownloaderConfig where
  proxy : Option String := none
  timeout : Rat := 3
  max_retries : Nat := 3
  retry_delay : Rat := mkRat 1 2
  skip_bad_response : Bool := true
  headers : Option (List (String × String)) := none
deriving DecidableEq, Repr

/-- The tenacity retry loop with stop_after_attempt: one attempt per unit
of the remaining budget taken from a per-attempt HTTP oracle; once the
budget is exhausted the error callback result is returned when a callback
is installed, and a RetryError is raised otherwise. -/
def retryLoop (attempt : Nat → Except PyErr String)
    (callback : Option (Unit → Option String)) :
    Nat → Nat → Except PyErr (Option String)
  | _, 0 =>
    match callback with
    | some cb => .ok (cb ())
    | none => .error (.valueError "RetryError")
  | i, n + 1 =>
    match attempt i with
    | .ok text => .ok (some text)
    | .error _ => retryLoop attempt callback (i + 1) n

/-- SimpleWebDownloader.download: a retried page fetch whose error callback
is the source lambda returning None when skip_bad_response is set and None
otherwise. -/
def simple_download (cfg : SimpleWebDownloaderConfig)
    (attempt : Nat → Except PyErr String) (url : String) :
    Except PyErr (Option String) :=
  let callback : Unit → Option String :=
    fun _ => if cfg.skip_bad_response then none else none
  retryLoop attempt (some callback) 0 cfg.max_retries

/- ===== Iterative BM25 searcher (src/kylin/searchers/bm25_searcher.py) ===== -/

/-- One normalized context record built by the search loop. -/
structure BCtx where
  query : String
  retriever : String
  text : String
  full_text : String
  source : String
deriving DecidableEq, Repr

/-- Modelled from the spec: the refine prompts live in kylin.kylin_prompts,
which is not among the sources; the spec lists the three refinement
strategies in the order extend, filter, emphasize, each an LLM prompt
ending in a user turn. -/
def refine_prompt_bm25 : List (String × List TurnDict) :=
  [("extend", [⟨"user", "Extend the query with additional terms."⟩]),
   ("filter", [⟨"user", "Name a term to exclude from the query."⟩]),
   ("emphasize", [⟨"user", "Name a quoted term of the query to boost."⟩])]

/-- Modelled from the spec: the verify prompt of kylin.kylin_prompts is not
among the sources; it asks the judge whether the evidence suffices. -/
def verify_prompt : List TurnDict :=
  [⟨"system", "Judge whether the contexts contain enough information."⟩]

/-- Replaces the content of the last turn of a prompt, the subscript
assignment to prompt at index minus one. -/
def modifyLast (f : String → String) : List TurnDict → List TurnDict
  | [] => []
  | [t] => [⟨t.role, f t.content⟩]
  | t :: rest => t :: modifyLast f rest

/-- The enumerated context block shared by refine_query and
verify_contexts. -/
def ctxBlock (contexts : List BCtx) : String :=
  (contexts.enum.foldl
    (fun acc p => acc ++ "Context " ++ toString p.fst ++ ": " ++ p.snd.text ++ "\n\n")
    "")

/-- BM25Searcher.refine_query: iterates over the refinement prompt types,
but the return statement sits inside the loop body, so only the first
prompt type is processed before the collected list is returned; an empty
prompt table would fall through and return None. -/
def refine_query (agent : List TurnDict → String) (contexts : List BCtx)
    (base_query current_query : String) : Option (List String) :=
  match refine_prompt_bm25 with
  | [] => none
  | (prompt_type, basePrompt) :: _ =>
    let ctx_str := ctxBlock contexts
    let prompt := modifyLast
      (fun c => ctx_str ++ c ++ "\n\nCurrent query: " ++ current_query
        ++ "\n\nThe information you are looking for: " ++ base_query) basePrompt
    let response := agent prompt
    let refined_queries : List String :=
      if prompt_type = "extend" then
        [current_query ++ " " ++ response]
      else if prompt_type = "filter" then
        [current_query ++ " -" ++ response]
      else if prompt_type = "emphasize" then
        if ¬ containsSub current_query ("\"" ++ response ++ "\"") then
          [current_query.replace ("\"" ++ response ++ "\"")
            ("\"" ++ response ++ "\"^2")]
        else []
      else []
    some refined_queries

/-- BM25Searcher.verify_contexts: prompts the judge with the contexts and
the question and tests whether yes occurs in the lowercased response. -/
def verify_contexts (agent : List TurnDict → String) (contexts : List BCtx)
    (question : String) : Bool :=
  let user := ctxBlock contexts ++ "Topic: " ++ question
  containsSub (pyLower (agent (verify_prompt ++ [⟨"user", user⟩]))) "yes"

/-- The raw per-query result shape the BM25 retriever returns to the
search loop. -/
structure RawResult where
  texts : List String
  indices : Option (List String)
  urls : Option (List String)
deriving DecidableEq, Repr

/-- The normalization block of BM25Searcher.search: indices fall back to
urls (asserting that urls exist), and each text and source pair becomes a
context record. -/
def normalizeCtxs (q : String) (raw : RawResult) : Except PyErr (List BCtx) :=
  match raw.indices with
  | some inds =>
    .ok ((raw.texts.zip inds).map (fun p => ⟨q, "bm25", p.fst, p.fst, p.snd⟩))
  | none =>
    match raw.urls with
    | some us =>
      .ok ((raw.texts.zip us).map (fun p => ⟨q, "bm25", p.fst, p.fst, p.snd⟩))
    | none => .error (.assertionError "urls")

/-- The outcome of one iteration of the search loop. -/
inductive StepOut where
  | halt (ctxs : List BCtx)
  | next (stack : List (String × Nat)) (ctxs : List BCtx)
  | fail (e : PyErr)
deriving DecidableEq, Repr

/-- One iteration of the breadth-first loop of BM25Searcher.search: pop the
front entry, retrieve and normalize, verify if more than one round is
configured, break on success, stop expanding at the depth bound, and
otherwise push every refined child query at depth plus one. -/
def searchStep (agent : List TurnDict → String) (retrieve : String → RawResult)
    (question : String) (total_depth : Nat) (entry : String × Nat)
    (rest : List (String × Nat)) : StepOut :=
  let q := entry.fst
  let depth := entry.snd
  match normalizeCtxs q (retrieve q) with
  | .error e => .fail e
  | .ok ctxs =>
    let verification :=
      if total_depth > 1 then verify_contexts agent ctxs question else true
    if verification then .halt ctxs
    else if depth ≥ total_depth then .next rest ctxs
    else
      match refine_query agent ctxs question q with
      | none => .fail (.typeError "NoneType object is not iterable")
      | some refined =>
        .next (rest ++ refined.map (fun rq => (rq, depth + 1))) ctxs

/- ===== Auxiliary concrete instances used by the theorems ===== -/

/-- Claim C4, counterexample registries: one with main name A, one whose
alias is A. -/
def regA : Register := ⟨[("A", ⟨0, "A", [], none⟩)], []⟩

def regB : Register := ⟨[("B", ⟨1, "B", ["A"], none⟩)], [("A", "B")]⟩


/-- Writing a prompt and reading it back: to_json composed with from_json. -/
def promptRoundTrip (p : ChatPrompt) : Except PyErr ChatPrompt :=
  match p.to_json with
  | .ok j => ChatPrompt.from_json j
  | .error e => .error e


/-- A concrete search_batch backend for evaluating the cached search. -/
def sbStub : List String → Nat → List (List RetrievedContext) :=
  fun qs _ => qs.map (fun q => [⟨"bm25", q, [], none, 0⟩])

/-- The cache key the wrapper builds for the query q at top_k ten. -/
def keyQ : CKey := [("cfg", PyVal.s "cfg"), ("query", PyVal.s "q"), ("top_k", PyVal.i 10)]


/-- A prompt whose single demonstration is what makes it exceed the budget. -/
def demoPrompt : ChatPrompt := ⟨none, [⟨"user", "hello"⟩], [[⟨"user", "xxxx"⟩]]⟩


/- ===== Theorems ===== -/

/- ===== Supporting lemmas ===== -/

theorem lookupA_isSome_iff {β : Type _} (l : List (String × β)) (k : String) :
    (lookupA l k).isSome ↔ k ∈ l.map Prod.fst := by
  induction l with
  | nil => simp [lookupA]
  | cons p rest ih =>
    by_cases h : p.fst = k
    · simp [lookupA, h]
    · simp [lookupA, h, ih, Ne.symm h]

theorem lookupA_dictSet_self {β : Type _} (l : List (String × β)) (k : String) (v : β) :
    lookupA (dictSet l k v) k = some v := by
  induction l with
  | nil => simp [dictSet, lookupA]
  | cons p rest ih =>
    by_cases h : p.fst = k
    · simp [dictSet, h, lookupA]
    · simp [dictSet, h, lookupA, ih]

theorem lookupA_dictSet_other {β : Type _} (l : List (String × β)) (k k' : String)
    (v : β) (h : k' ≠ k) : lookupA (dictSet l k v) k' = lookupA l k' := by
  induction l with
  | nil => simp [dictSet, lookupA, Ne.symm h]
  | cons p rest ih =>
    by_cases hp : p.fst = k
    · simp [dictSet, hp, lookupA, Ne.symm h]
    · simp [dictSet, hp, lookupA, ih]

theorem lookupA_foldl_set_of_not_mem {β : Type _} (v : β) (as : List String)
    (sc0 : List (String × β)) (a : String) (h : a ∉ as) :
    lookupA (as.foldl (fun sc n => dictSet sc n v) sc0) a = lookupA sc0 a := by
  induction as generalizing sc0 with
  | nil => rfl
  | cons x xs ih =>
    simp only [List.mem_cons, not_or] at h
    rw [List.foldl_cons, ih _ h.2, lookupA_dictSet_other _ _ _ _ h.1]

theorem lookupA_foldl_set_of_mem {β : Type _} (v : β) (as : List String)
    (sc0 : List (String × β)) (a : String) (h : a ∈ as) :
    lookupA (as.foldl (fun sc n => dictSet sc n v) sc0) a = some v := by
  induction as generalizing sc0 with
  | nil => cases h
  | cons x xs ih =>
    rw [List.foldl_cons]
    by_cases hx : a ∈ xs
    · exact ih _ hx
    · have hax : a = x := by
        rcases List.mem_cons.mp h with h1 | h2
        · exact h1
        · exact absurd h2 hx
      subst hax
      rw [lookupA_foldl_set_of_not_mem _ _ _ _ hx, lookupA_dictSet_self]

/- ===== C4 ===== -/

/-- Claim C4 counterexample: both registries arise from successful register
operations, yet their merge raises no error and violates the no-collision
invariant, so a merge is not only permitted when no collisions occur. -/
theorem c4_merge_unchecked_cex :
    Register.registe_item ⟨[], []⟩ "A" [] 0 none = .ok regA
    ∧ Register.registe_item ⟨[], []⟩ "B" ["A"] 1 none = .ok regB
    ∧ (regA.add regB).names = ["A", "B", "A"]
    ∧ ¬ (regA.add regB).noCollision := by
  refine ⟨rfl, rfl, rfl, by decide⟩

/-- Claim C4 (amended): register fails with a NameConflict assertion exactly
when the new main name or an alias collides with an existing main name or
alias, and after a successful registration the backend is retrievable by
its main name and by every alias; the merge operator, however, performs no
collision check. -/
theorem c4_register_conflict_and_retrieval :
    (∀ (r : Register) (main : String) (aliases : List String) (item : Nat)
        (cc : Option String),
      exOk (r.registe_item main aliases item cc) = true
        ↔ ∀ n ∈ main :: aliases, n ∉ r.names)
    ∧ (∀ (r : Register) (main : String) (aliases : List String) (item : Nat)
        (cc : Option String) (r' : Register),
      r.registe_item main aliases item cc = .ok r' →
      ∀ n ∈ main :: aliases, r'.getEntry n = .ok ⟨item, main, aliases, cc⟩) := by
  constructor
  · intro r main aliases item cc
    have key : exOk (r.registe_item main aliases item cc) = true ↔
        ¬ (lookupA r.items main).isSome ∧ ¬ (lookupA r.shortcuts main).isSome ∧
        aliases.find?
          (fun n => (lookupA r.items n).isSome || (lookupA r.shortcuts n).isSome)
          = none := by
      unfold Register.registe_item
      by_cases h1 : (lookupA r.items main).isSome
      · simp [h1, exOk]
      · by_cases h2 : (lookupA r.shortcuts main).isSome
        · simp [h1, h2, exOk]
        · cases hf : aliases.find?
              (fun n => (lookupA r.items n).isSome || (lookupA r.shortcuts n).isSome) with
          | none => simp [h1, h2, hf, exOk]
          | some x => simp [h1, h2, hf, exOk]
    rw [key, List.find?_eq_none]
    simp only [Register.names, List.mem_append, ← lookupA_isSome_iff,
      List.forall_mem_cons, Bool.or_eq_true, not_or]
    tauto
  · intro r main aliases item cc r' hok n hn
    unfold Register.registe_item at hok
    by_cases h1 : (lookupA r.items main).isSome
    · simp [h1] at hok
    · by_cases h2 : (lookupA r.shortcuts main).isSome
      · simp [h1, h2] at hok
      · cases hf : aliases.find?
            (fun n => (lookupA r.items n).isSome || (lookupA r.shortcuts n).isSome) with
        | some x => simp [h1, h2, hf] at hok
        | none =>
          simp only [h1, h2, hf] at hok
          simp only [Bool.false_eq_true, if_false, Except.ok.injEq] at hok
          subst hok
          rcases List.mem_cons.mp hn with rfl | ha
          · unfold Register.getEntry
            simp [lookupA_dictSet_self]
          · have hfr := List.find?_eq_none.mp hf n ha
            simp only [Bool.or_eq_true, not_or, Bool.not_eq_true,
              Option.not_isSome_iff_eq_none] at hfr
            by_cases hnm : n = main
            · subst hnm
              unfold Register.getEntry
              simp [lookupA_dictSet_self]
            · have h3 : lookupA r.items n = none :=
                Option.not_isSome_iff_eq_none.mp (by simp [hfr.1])
              unfold Register.getEntry
              simp [lookupA_dictSet_other _ _ _ _ hnm, h3,
                lookupA_foldl_set_of_mem _ _ _ _ ha, lookupA_dictSet_self]

theorem c4_register_conflict_and_retrieval_witness :
    regB.getEntry "A" = .ok ⟨1, "B", ["A"], none⟩
    ∧ regB.getEntry "B" = .ok ⟨1, "B", ["A"], none⟩ := by
  have h := c4_register_conflict_and_retrieval.2 ⟨[], []⟩ "B" ["A"] 1 none regB rfl
  exact ⟨h "A" (by simp), h "B" (by simp)⟩

/- ===== C8 ===== -/

/-- Claim C8: GenerationConfig validates its decoding parameters at
construction: the two stated invalid combinations fail, the stated valid
combination succeeds, and in general construction succeeds exactly when
sample_num is at least one, do_sample holds whenever sample_num exceeds
one, temperature is non-negative, max_new_tokens is positive, top_p lies
in the unit interval and top_k is positive. -/
theorem c8_generation_config_validation :
    exOk (GenerationConfig.construct { sample_num := 2, do_sample := false }) = false
    ∧ exOk (GenerationConfig.construct { top_p := mkRat 3 2 }) = false
    ∧ exOk (GenerationConfig.construct
        { sample_num := 1, do_sample := false, top_p := mkRat 9 10, top_k := 50,
          max_new_tokens := 16, temperature := 0 }) = true
    ∧ ∀ c : GenerationConfig,
        exOk (GenerationConfig.construct c) = true
          ↔ (1 ≤ c.sample_num ∧ (c.sample_num > 1 → c.do_sample = true)
             ∧ 0 ≤ c.temperature ∧ 0 < c.max_new_tokens
             ∧ 0 ≤ c.top_p ∧ c.top_p ≤ 1 ∧ 0 < c.top_k) := by
  refine ⟨by decide, by decide, by decide, ?_⟩
  intro c
  have key : exOk (GenerationConfig.construct c) = true ↔
      (c.sample_num > 0 ∧ ¬ (c.sample_num > 1 ∧ c.do_sample = false) ∧ c.temperature ≥ 0
       ∧ c.max_new_tokens > 0 ∧ (0 ≤ c.top_p ∧ c.top_p ≤ 1) ∧ c.top_k > 0) := by
    unfold GenerationConfig.construct GenerationConfig.post_init
    by_cases h1 : c.sample_num > 0
    · by_cases h2 : c.sample_num > 1 ∧ c.do_sample = false
      · simp [h1, h2, exOk]
      · by_cases h3 : c.temperature ≥ 0
        · by_cases h4 : c.max_new_tokens > 0
          · by_cases h5 : 0 ≤ c.top_p ∧ c.top_p ≤ 1
            · by_cases h6 : c.top_k > 0
              · simp [h1, h2, h3, h4, h5, h6, exOk]
              · simp [h1, h2, h3, h4, h5, h6, exOk]
            · simp [h1, h2, h3, h4, h5, exOk]
          · simp [h1, h2, h3, h4, exOk]
        · simp [h1, h2, h3, exOk]
    · simp [h1, exOk]
  rw [key]
  constructor
  · rintro ⟨a, b, c1, d, ⟨e1, e2⟩, f⟩
    refine ⟨by omega, ?_, c1, d, e1, e2, f⟩
    intro hgt
    by_contra hds
    exact b ⟨hgt, by revert hds; cases c.do_sample <;> simp⟩
  · rintro ⟨a, b, c1, d, e1, e2, f⟩
    refine ⟨by omega, ?_, c1, d, ⟨e1, e2⟩, f⟩
    rintro ⟨hgt, hds⟩
    simp [b hgt] at hds

/- ===== C9 ===== -/

theorem chatTurn_from_to (t : ChatTurn) : ChatTurn.from_dict t.to_dict = t := rfl

/-- Claim C9 counterexample: a prompt without a system turn cannot be
written at all (to_json raises AttributeError), and a prompt whose first
demonstration is empty writes fine but cannot be read back, so the
round trip fails on both even though the document schema allows a null
system entry. -/
theorem c9_round_trip_cex :
    promptRoundTrip ⟨none, [⟨"user", "q"⟩], []⟩
      = .error (.attributeError "NoneType object has no to_dict")
    ∧ promptRoundTrip ⟨some ⟨"system", "s"⟩, [], [[], [⟨"user", "u"⟩]]⟩
      = .error (.indexError "list index out of range") := ⟨rfl, rfl⟩

/-- Claim C9 (amended): for every prompt whose system turn is present and
whose first demonstration, if any, is non-empty, writing with to_json and
reading back with from_json yields an equal prompt: same system turn, same
ordered history, same ordered demonstration lists. -/
theorem from_to_dict_comp : ChatTurn.from_dict ∘ ChatTurn.to_dict = id := by
  funext t
  rfl

theorem c9_round_trip_amended (p : ChatPrompt) (s : ChatTurn)
    (hs : p.system = some s) (hd : p.demonstrations.head? ≠ some []) :
    promptRoundTrip p = .ok p := by
  obtain ⟨sys, history, demos⟩ := p
  simp only at hs hd
  subst hs
  cases demos with
  | nil =>
    simp [promptRoundTrip, ChatPrompt.to_json, ChatPrompt.from_json,
      chatTurn_from_to, from_to_dict_comp]
  | cons d0 rest =>
    cases d0 with
    | nil => simp at hd
    | cons t ts =>
      simp [promptRoundTrip, ChatPrompt.to_json, ChatPrompt.from_json,
        chatTurn_from_to, from_to_dict_comp, List.map_map]


theorem c9_round_trip_amended_witness :
    promptRoundTrip
      ⟨some ⟨"system", "s"⟩, [⟨"user", "q"⟩, ⟨"assistant", "a"⟩], [[⟨"user", "d"⟩]]⟩
      = .ok ⟨some ⟨"system", "s"⟩, [⟨"user", "q"⟩, ⟨"assistant", "a"⟩], [[⟨"user", "d"⟩]]⟩ :=
  c9_round_trip_amended
    ⟨some ⟨"system", "s"⟩, [⟨"user", "q"⟩, ⟨"assistant", "a"⟩], [[⟨"user", "d"⟩]]⟩
    ⟨"system", "s"⟩ rfl (by decide)

/- ===== C10 ===== -/

/-- Claim C10: add_passages requires a text key in every passage mapping —
an iterable whose mappings all carry text (plain strings being wrapped as a
text mapping) generates its actions without error, title and section
default to empty strings, the fingerprint is updated with each text value,
and a mapping without text stops the generator with a KeyError before the
document is indexed. -/
theorem c10_add_passages_text_key :
    (∀ ps : List PassageInput, (∀ p ∈ ps, hasText p) → (generate_actions ps).err = none)
    ∧ generate_actions [.dict [("title", "t")]] = ⟨[], [], some (.keyError "text")⟩
    ∧ generate_actions [.str "hello", .dict [("text", "x"), ("section", "s")]]
      = ⟨[⟨"index", "wait_for", "", "", "hello"⟩, ⟨"index", "wait_for", "", "s", "x"⟩],
         ["hello", "x"], none⟩ := by
  refine ⟨?_, by decide, by decide⟩
  intro ps h
  induction ps with
  | nil => rfl
  | cons p rest ih =>
    have hp := h p (by simp)
    have hrest := ih (fun q hq => h q (by simp [hq]))
    cases p with
    | str s =>
      simp [generate_actions, passageFields, prepare_text, pItem, lookupA, hrest]
    | dict fields =>
      unfold hasText at hp
      obtain ⟨v, hv⟩ := Option.isSome_iff_exists.mp hp
      simp [generate_actions, passageFields, prepare_text, pItem, hv, hrest]

theorem c10_add_passages_text_key_witness :
    (∀ p ∈ ([.str "hello", .dict [("text", "x"), ("section", "s")]] : List PassageInput),
      hasText p)
    ∧ (generate_actions [.str "hello", .dict [("text", "x"), ("section", "s")]]).err
      = none :=
  ⟨by decide, c10_add_passages_text_key.1
      [.str "hello", .dict [("text", "x"), ("section", "s")]] (by decide)⟩

/- ===== C1 ===== -/

/-- Claim C1: on an empty cache a cache-enabled search raises TypeError at
the None subscript of the miss path before search_batch can run; with
disable_cache the backend is invoked once; and when every query is already
cached the results come from the cache with no backend invocation. -/
theorem c1_cached_search_miss_raises :
    batched_cache_search sbStub 32 id (.s "cfg") [] ["q"] 10 false []
      = .error (.typeError "NoneType object is not subscriptable")
    ∧ batched_cache_search sbStub 32 id (.s "cfg") [] ["q"] 10 true []
      = .ok ([[⟨"bm25", "q", [], none, 0⟩]], [], 1)
    ∧ batched_cache_search sbStub 32 id (.s "cfg")
        [(keyQ, ([[⟨"bm25", "q", [], none, 0⟩]].headD [], keyQ))] ["q"] 10 false []
      = .ok ([[⟨"bm25", "q", [], none, 0⟩]],
             [(keyQ, ([⟨"bm25", "q", [], none, 0⟩], keyQ))], 0) := by
  refine ⟨by decide, by decide, by decide⟩

/- ===== C2 ===== -/

theorem autoLoop_hello_fixed (n : Nat) :
    autoLoop charTok none true 2 n helloPrompt (List.replicate 5 0) = none := by
  induction n with
  | zero => rfl
  | succ k ih =>
    have hstep : autoLoop charTok none true 2 (k + 1) helloPrompt (List.replicate 5 0)
        = autoLoop charTok none true 2 k helloPrompt (List.replicate 5 0) := rfl
    rw [hstep]
    exact ih

/-- Claim C2: rendering the five-token prompt under the auto strategy with
a budget of two never terminates at any fuel: with no history pair and no
demonstration left to drop, the hard-truncation fallback re-encodes
without passing max_length, so the tokenizer truncates only to its own
model_max_length of 100 and the loop state never shrinks below the
budget. -/
theorem c2_auto_truncation_diverges (fuel : Nat) :
    render_to_ids_auto charTok none true helloPrompt 2 fuel = none := by
  have h0 : render_to_ids_auto charTok none true helloPrompt 2 fuel
      = autoLoop charTok none true 2 fuel helloPrompt (List.replicate 5 0) := rfl
  rw [h0]
  exact autoLoop_hello_fixed fuel

/- ===== C3 ===== -/

/-- Claim C3: the demo strategy never returns ids — a prompt that already
fits the budget reaches the final return with the ids variable unassigned
and raises UnboundLocalError, and a prompt over budget pops demonstrations
without ever re-encoding, so it raises the LengthExceeded ValueError even
though dropping its demonstration makes the re-rendered prompt fit. -/
theorem c3_demo_truncation_never_returns :
    render_to_ids_demo charTok none true helloPrompt 10
      = .error (.unboundLocalError "ids")
    ∧ render_to_ids_demo charTok none true demoPrompt 6
      = .error (.valueError "Unable to truncate the prompt using demo strategy.")
    ∧ hfEncode charTok none true ⟨none, [⟨"user", "hello"⟩], []⟩ none false "left"
      = .ok (List.replicate 5 0)
    ∧ (List.replicate 5 0).length ≤ 6 := by
  refine ⟨by decide, by decide, rfl, by decide⟩

/- ===== C6 ===== -/

/-- Claim C6: a batch whose per-query response has a non-200 status does
not produce the placeholder context — the constructor call of
_form_results passes the fixed-field keywords of the older context shape
to the data-mapping RetrievedContext dataclass it imports, which rejects
chunk_id as an unexpected keyword, so the whole batch call raises
TypeError; the same happens when the response list is missing. -/
theorem c6_form_results_type_error :
    form_results "documents" ["a"] (some [⟨500, []⟩])
      = .error (.typeError "init got an unexpected keyword argument chunk_id")
    ∧ form_results "documents" ["a", "b"] (some [⟨200, [⟨"d1", 1, "T", "S", "X"⟩]⟩, ⟨500, []⟩])
      = .error (.typeError "init got an unexpected keyword argument chunk_id")
    ∧ form_results "documents" ["a"] none
      = .error (.typeError "init got an unexpected keyword argument chunk_id") := by
  refine ⟨by decide, by decide, by decide⟩

/- ===== C7 ===== -/

/-- Claim C7: with the default configuration (three attempts, half-second
delay, skip enabled) an always-failing URL resolves to no value; a success
only available at the fourth attempt is never reached; and with
skip_bad_response disabled the downloader still resolves to no value
instead of raising, because the retry callback returns None in both arms
of its conditional. -/
theorem c7_downloader_swallows_failure :
    ({} : SimpleWebDownloaderConfig).max_retries = 3
    ∧ ({} : SimpleWebDownloaderConfig).retry_delay = mkRat 1 2
    ∧ ({} : SimpleWebDownloaderConfig).skip_bad_response = true
    ∧ simple_download {} (fun _ => .error (.valueError "HTTPStatusError"))
        "http://a.example" = .ok none
    ∧ simple_download {} (fun i => if i < 3 then .error (.valueError "boom") else .ok "page")
        "http://a.example" = .ok none
    ∧ simple_download { skip_bad_response := false }
        (fun _ => .error (.valueError "HTTPStatusError")) "http://a.example"
      = .ok none := by
  refine ⟨rfl, by decide, rfl, by decide, by decide, by decide⟩

/- ===== C5 ===== -/

/-- Claim C5 counterexample: with a judge response foo, refine_query yields
only the extend child — not one child per strategy — because the return
statement sits inside the loop over prompt types. -/
theorem c5_refine_single_child_cex :
    refine_query (fun _ => "foo") [] "base" "cur" = some ["cur foo"]
    ∧ refine_query (fun _ => "foo") [] "base" "cur"
      ≠ some ["cur foo", "cur -foo", "cur"] := ⟨rfl, by decide⟩

/-- Claim C5 (amended): refine_query returns exactly one child query — the
extend child appending the judge output to the current query, the first
strategy in the prompt table — and when the judge deems the evidence
insufficient below the depth bound, the search loop pushes each returned
child onto the work queue at depth plus one. -/
theorem c5_refine_and_push_amended :
    (∀ (agent : List TurnDict → String) (contexts : List BCtx) (bq cq : String),
      ∃ resp, refine_query agent contexts bq cq = some [cq ++ " " ++ resp])
    ∧ (∀ (agent : List TurnDict → String) (retrieve : String → RawResult)
        (question : String) (td : Nat) (q : String) (depth : Nat)
        (rest : List (String × Nat)) (ctxs : List BCtx),
      normalizeCtxs q (retrieve q) = .ok ctxs →
      verify_contexts agent ctxs question = false →
      td > 1 → depth < td →
      searchStep agent retrieve question td (q, depth) rest
        = .next (rest ++ ((refine_query agent ctxs question q).getD []).map
            (fun rq => (rq, depth + 1))) ctxs) := by
  constructor
  · intro agent contexts bq cq
    exact ⟨_, rfl⟩
  · intro agent retrieve question td q depth rest ctxs hnorm hv htd hdepth
    obtain ⟨resp, hr⟩ :
        ∃ resp, refine_query agent ctxs question q = some [q ++ " " ++ resp] :=
      ⟨_, rfl⟩
    unfold searchStep
    dsimp only
    rw [hnorm]
    simp only [htd, if_true, hv, Bool.false_eq_true, if_false,
      Nat.not_le.mpr hdepth, hr]
    simp [hr]

theorem c5_refine_and_push_amended_witness :
    searchStep (fun _ => "no") (fun _ => ⟨["t1"], some ["i1"], none⟩) "Q" 2 ("cur", 1) []
      = .next [("cur no", 2)] [⟨"cur", "bm25", "t1", "t1", "i1"⟩] := by
  have h := c5_refine_and_push_amended.2 (fun _ => "no")
      (fun _ => ⟨["t1"], some ["i1"], none⟩) "Q" 2 "cur" 1 []
      [⟨"cur", "bm25", "t1", "t1", "i1"⟩] (by decide) (by decide) (by decide) (by decide)
  rw [h]
  decide
